import Mathlib

/-!
Shallow embedding of the help-request lifecycle core of the repository:
`src/help_request_db.py` (persistent store operations) and
`src/timeout_handler.py` (periodic sweep, escalation resolver), with the
supervisor roster of `src/supervisor_notifier.py` abstracted to the list of
supervisor names (the only field the escalation path reads is `'name'`).

Timestamps: Python `datetime` values are embedded as a record of calendar
fields; `dtKey` maps a value to its total microsecond count, which models
both Python `datetime` comparison and SQLite TIMESTAMP-string comparison
for well-formed values. `datetime.now()` / `datetime('now')` calls are
passed in as explicit `now` parameters.

The SQLite table is embedded as a list of rows; `AUTOINCREMENT` ids are
passed in as an explicit `nextId` parameter.  `priority` is stored as TEXT
(the enum `.value` string); SQLite compares TEXT bytewise, which is
embedded as the lexicographic order on `List Char`.
-/

namespace FrontDesk

/-- Statuses of `HelpRequestStatus` in help_request_db.py. -/
inductive HelpRequestStatus where
  | pending
  | in_progress
  | timeout
  | resolved
  | unresolved
deriving DecidableEq

/-- Priorities of `HelpRequestPriority` in help_request_db.py. -/
inductive HelpRequestPriority where
  | low
  | medium
  | high
  | urgent
deriving DecidableEq

/-- The `.value` string of a `HelpRequestPriority` member. -/
def priorityValue : HelpRequestPriority → String
  | HelpRequestPriority.low => "low"
  | HelpRequestPriority.medium => "medium"
  | HelpRequestPriority.high => "high"
  | HelpRequestPriority.urgent => "urgent"

/-- The byte sequence of the stored TEXT priority column, as compared by SQLite. -/
def priorityText (p : HelpRequestPriority) : List Char :=
  (priorityValue p).data

/-- The `.value` string of a `HelpRequestStatus` member. -/
def statusValue : HelpRequestStatus → String
  | HelpRequestStatus.pending => "pending"
  | HelpRequestStatus.in_progress => "in_progress"
  | HelpRequestStatus.timeout => "timeout"
  | HelpRequestStatus.resolved => "resolved"
  | HelpRequestStatus.unresolved => "unresolved"

/-- A Python `datetime` value, by calendar fields.  `day` absorbs
year/month into a day count so that field arithmetic stays visible;
`replace(minute=...)` validation needs the `minute` field explicitly. -/
structure PyDateTime where
  day : Nat
  hour : Nat
  minute : Nat
  second : Nat
  micro : Nat
deriving DecidableEq

/-- Total microseconds of a `PyDateTime`: the comparison key modelling
`datetime` order and SQLite TIMESTAMP-string order for well-formed values. -/
def dtKey (d : PyDateTime) : Nat :=
  (((d.day * 24 + d.hour) * 60 + d.minute) * 60 + d.second) * 1000000 + d.micro

/-- One entry of the JSON `escalation_history` column, as appended by
`escalate_request` (keys: timestamp, level, assigned_to, reason). -/
structure EscalationEntry where
  timestamp : PyDateTime
  level : Nat
  assigned_to : String
  reason : String
deriving DecidableEq

/-- One row of the `help_requests` table (all 15 columns; `tags` and
`metadata` are stored JSON-encoded, embedded structurally, with the
`Any` values of the metadata dict restricted to strings — no claim
inspects them). -/
structure Row where
  id : Nat
  customer_id : String
  customer_name : String
  question : String
  status : HelpRequestStatus
  priority : HelpRequestPriority
  created_at : PyDateTime
  updated_at : PyDateTime
  assigned_to : Option String
  resolution : Option String
  tags : List String
  metadata : List (String × String)
  timeout_at : Option PyDateTime
  escalation_level : Nat
  escalation_history : List EscalationEntry
deriving DecidableEq

/-- The in-memory `HelpRequest` dataclass of help_request_db.py.  It has
exactly the twelve declared fields: NO `timeout_at`, `escalation_level` or
`escalation_history` attribute exists on it. -/
structure HelpRequestObj where
  id : Nat
  customer_id : String
  customer_name : String
  question : String
  status : HelpRequestStatus
  priority : HelpRequestPriority
  created_at : PyDateTime
  updated_at : PyDateTime
  assigned_to : Option String
  resolution : Option String
  tags : List String
  metadata : List (String × String)
deriving DecidableEq

/-- `HelpRequestDB._row_to_help_request`: builds a `HelpRequest` from
row columns 0..11 only; columns 12..14 (timeout_at, escalation_level,
escalation_history) are dropped. -/
def row_to_help_request (r : Row) : HelpRequestObj :=
  { id := r.id
    customer_id := r.customer_id
    customer_name := r.customer_name
    question := r.question
    status := r.status
    priority := r.priority
    created_at := r.created_at
    updated_at := r.updated_at
    assigned_to := r.assigned_to
    resolution := r.resolution
    tags := r.tags
    metadata := r.metadata }

/-- Python runtime errors that the embedded operations can raise, plus the
`ValidationError` of the spec's error taxonomy.  No `ValidationError`
class exists anywhere in the source; the constructor is present only so
that statements about the spec's taxonomy can be written. -/
inductive PyError where
  | valueError
  | attributeError
  | validationError
deriving DecidableEq

/-- The dynamically-typed `priority` argument of `create_help_request`:
either an actual `HelpRequestPriority` enum member, or any other Python
value (carried as a string tag), which has no `.value` attribute. -/
inductive PyPriorityArg where
  | enumVal (p : HelpRequestPriority)
  | nonEnum (s : String)
deriving DecidableEq

/-- `HelpRequestDB._calculate_timeout_minutes`: dict lookup with
`.get(priority, 15)` — any value outside the four enum members gets the
default of 15 minutes, with no validation. -/
def calculate_timeout_minutes : PyPriorityArg → Nat
  | PyPriorityArg.enumVal HelpRequestPriority.urgent => 5
  | PyPriorityArg.enumVal HelpRequestPriority.high => 10
  | PyPriorityArg.enumVal HelpRequestPriority.medium => 15
  | PyPriorityArg.enumVal HelpRequestPriority.low => 30
  | PyPriorityArg.nonEnum _ => 15

/-- `HelpRequestDB.create_help_request`.  Faithful order of effects:
1. `timeout_minutes = self._calculate_timeout_minutes(priority)`;
2. `timeout_at = now.replace(second=0, microsecond=0)` then
   `timeout_at.replace(minute=timeout_at.minute + timeout_minutes)` —
   `datetime.replace` raises `ValueError` when the new minute exceeds 59;
3. the INSERT parameter tuple evaluates `priority.value`, which raises
   `AttributeError` for a non-enum argument (before any row is inserted).
On success the new row is appended with status PENDING, escalation
level 0 and empty history, and the built `HelpRequest` is returned. -/
def create_help_request (db : List Row) (nextId : Nat) (now : PyDateTime)
    (customer_id : String) (customer_name : String) (question : String)
    (priority : PyPriorityArg) (tags : List String)
    (metadata : List (String × String)) :
    Except PyError (List Row × HelpRequestObj) :=
  let timeout_minutes := calculate_timeout_minutes priority
  let base : PyDateTime := { now with second := 0, micro := 0 }
  if 60 ≤ base.minute + timeout_minutes then
    Except.error PyError.valueError
  else
    match priority with
    | PyPriorityArg.nonEnum _ => Except.error PyError.attributeError
    | PyPriorityArg.enumVal p =>
      let timeout_at : PyDateTime := { base with minute := base.minute + timeout_minutes }
      let row : Row :=
        { id := nextId
          customer_id := customer_id
          customer_name := customer_name
          question := question
          status := HelpRequestStatus.pending
          priority := p
          created_at := now
          updated_at := now
          assigned_to := none
          resolution := none
          tags := tags
          metadata := metadata
          timeout_at := some timeout_at
          escalation_level := 0
          escalation_history := [] }
      let obj : HelpRequestObj :=
        { id := nextId
          customer_id := customer_id
          customer_name := customer_name
          question := question
          status := HelpRequestStatus.pending
          priority := p
          created_at := now
          updated_at := now
          assigned_to := none
          resolution := none
          tags := tags
          metadata := metadata }
      Except.ok (db ++ [row], obj)

/-- Outcome of the surrounding storage layer for `get_help_request`: the
`try` body either runs normally or some sqlite call raises. -/
inductive StorageOutcome where
  | ok
  | ioError
deriving DecidableEq

/-- `HelpRequestDB.get_help_request`: SELECT by id; returns `None` when no
row matches, and the `except` handler also returns `None` on any storage
exception — the function never raises (its result type is `Option`, not
`Except`). -/
def get_help_request (outcome : StorageOutcome) (db : List Row)
    (request_id : Nat) : Option HelpRequestObj :=
  match outcome with
  | StorageOutcome.ioError => none
  | StorageOutcome.ok =>
    (db.find? (fun r => r.id == request_id)).map row_to_help_request

/-- The SQL comparator of `get_pending_requests`:
`ORDER BY priority DESC, created_at ASC` over the TEXT priority column
(bytewise string comparison) and the TIMESTAMP created_at column.
`a` sorts no later than `b` when `b`'s priority text is strictly smaller,
or the priority texts are equal and `a` was created no later. -/
def pendingRel (a b : Row) : Prop :=
  priorityText b.priority < priorityText a.priority ∨
    (priorityText a.priority = priorityText b.priority ∧
      dtKey a.created_at ≤ dtKey b.created_at)

instance : DecidableRel pendingRel := fun _ _ =>
  inferInstanceAs (Decidable (_ ∨ _))

/-- `HelpRequestDB.get_pending_requests`: rows with `status = 'pending'`,
`ORDER BY priority DESC, created_at ASC`, `LIMIT limit`.  The ORDER BY is
embedded as a stable sort by the comparator `pendingRel`. -/
def get_pending_requests (db : List Row) (limit : Nat) : List Row :=
  ((List.insertionSort pendingRel
    (db.filter (fun r => r.status == HelpRequestStatus.pending))).take limit)

/-- The per-row effect of the UPDATE of `update_request_status`: on the
matching row, set status and updated_at, and assigned_to / resolution only
when the optional arguments were provided; other rows are untouched. -/
def update_row (request_id : Nat) (status : HelpRequestStatus)
    (assigned_to : Option String) (resolution : Option String)
    (now : PyDateTime) (r : Row) : Row :=
  if r.id == request_id then
    { r with
      status := status
      updated_at := now
      assigned_to := match assigned_to with
        | some a => some a
        | none => r.assigned_to
      resolution := match resolution with
        | some s => some s
        | none => r.resolution }
  else r

/-- `HelpRequestDB.update_request_status`: unconditional UPDATE of status
and updated_at (plus assigned_to / resolution when provided) on the row
with the given id; returns True.  No check of the current status is
performed — terminal rows are overwritten like any other. -/
def update_request_status (db : List Row) (request_id : Nat)
    (status : HelpRequestStatus) (assigned_to : Option String)
    (resolution : Option String) (now : PyDateTime) : List Row × Bool :=
  (db.map (update_row request_id status assigned_to resolution now), true)

/-- `HelpRequestDB.check_timeouts`: SELECT rows with `status = 'pending'`
AND `timeout_at IS NOT NULL` AND `timeout_at < datetime('now')`.  Only
PENDING rows are selected; rows already in TIMEOUT are not. -/
def check_timeouts (db : List Row) (now : PyDateTime) : List Row :=
  db.filter (fun r =>
    r.status == HelpRequestStatus.pending &&
      match r.timeout_at with
      | none => false
      | some t => decide (dtKey t < dtKey now))

/-- The per-row effect of the UPDATE of `escalate_request`: on the
matching row, set status `'timeout'`, the given escalation level and
assignee, the new history value and updated_at. -/
def escalate_row (request_id : Nat) (escalation_level : Nat)
    (assigned_to : String) (newHistory : List EscalationEntry)
    (now : PyDateTime) (r : Row) : Row :=
  if r.id == request_id then
    { r with
      status := HelpRequestStatus.timeout
      escalation_level := escalation_level
      assigned_to := some assigned_to
      escalation_history := newHistory
      updated_at := now }
  else r

/-- `HelpRequestDB.escalate_request`: fetches the current history of the
matched row (when no row matches, `fetchone()` yields `None` and the
subscript raises, caught by the handler which returns False with no
change), appends one entry to it, and runs the UPDATE; returns True. -/
def escalate_request (db : List Row) (request_id : Nat)
    (escalation_level : Nat) (assigned_to : String) (reason : String)
    (now : PyDateTime) : List Row × Bool :=
  match db.find? (fun r => r.id == request_id) with
  | none => (db, false)
  | some r0 =>
    let entry : EscalationEntry :=
      { timestamp := now
        level := escalation_level
        assigned_to := assigned_to
        reason := reason }
    (db.map (escalate_row request_id escalation_level assigned_to
      (r0.escalation_history ++ [entry]) now), true)

/-- The per-row effect of the UPDATE of `mark_unresolved`: unconditional
write of status `'unresolved'`, resolution `"Unresolved: " + reason` and
updated_at on the matching row.  No terminal-state check anywhere. -/
def unresolved_row (request_id : Nat) (reason : String) (now : PyDateTime)
    (r : Row) : Row :=
  if r.id == request_id then
    { r with
      status := HelpRequestStatus.unresolved
      resolution := some ("Unresolved: " ++ reason)
      updated_at := now }
  else r

/-- `HelpRequestDB.mark_unresolved`, continued: the UPDATE applied to the
whole table; returns True. -/
def mark_unresolved (db : List Row) (request_id : Nat) (reason : String)
    (now : PyDateTime) : List Row × Bool :=
  (db.map (unresolved_row request_id reason now), true)

/-- Maximum escalation levels per priority: the `'escalation_levels'` field
of `TimeoutHandler._load_escalation_config` (urgent 3, high 3, medium 2,
low 2).  The config dict is keyed by the lower-cased `.value` strings, so
every enum member hits its own entry and the `'medium'` fallback for an
unknown key is unreachable from enum-typed priorities. -/
def escalation_levels : HelpRequestPriority → Nat
  | HelpRequestPriority.urgent => 3
  | HelpRequestPriority.high => 3
  | HelpRequestPriority.medium => 2
  | HelpRequestPriority.low => 2

/-- `TimeoutHandler._get_backup_supervisor`, over the supervisor roster as
the ordered list of names (`list(supervisors.values())`, each used only
through `s['name']`).  Empty roster yields `None`; otherwise the currently
assigned supervisor is filtered out (Python `name != None` is true for
every name, so a `None` assignee excludes nobody); if that empties the
list the full roster is restored; the pick is index
`(level - 1) % len(available)`. -/
def get_backup_supervisor (supervisor_list : List String)
    (current_supervisor : Option String) (level : Nat) : Option String :=
  if supervisor_list.isEmpty then
    none
  else
    let available := supervisor_list.filter (fun s =>
      match current_supervisor with
      | none => true
      | some c => decide (s ≠ c))
    let available2 := if available.isEmpty then supervisor_list else available
    available2[(level - 1) % available2.length]?

/-- Outcome of the external `notify_supervisor` call as seen by
`_handle_timeout`: the awaited coroutine either raises or returns a
boolean (its return value is unused by the caller). -/
inductive NotifyOutcome where
  | raises
  | returns (b : Bool)
deriving DecidableEq

/-- The action dict returned by `_handle_timeout`
(`{'action': 'escalated', ...}` or `{'action': 'unresolved', ...}`). -/
inductive SweepAction where
  | escalated (request_id : Nat) (level : Nat) (supervisor : String)
      (reason : String)
  | unresolvedAction (request_id : Nat) (reason : String)
deriving DecidableEq

/-- Result of `_handle_timeout`: the store after the step, the warnings
logged, and the returned action (or `None`). -/
structure HandleResult where
  db : List Row
  warnings : List String
  action : Option SweepAction
deriving DecidableEq

/-- `TimeoutHandler._mark_final_unresolved`: reads
`getattr(request, 'escalation_level', 0)` — the `HelpRequest` dataclass
has no `escalation_level` attribute, so this is always the default 0 —
and calls `mark_unresolved`, which always reports success. -/
def mark_final_unresolved (db : List Row) (req : HelpRequestObj)
    (now : PyDateTime) : List Row × Option SweepAction :=
  let current_level : Nat := 0
  let reason := "All " ++ toString current_level ++ " escalation levels exhausted"
  let res := mark_unresolved db req.id reason now
  if res.2 then
    (res.1, some (SweepAction.unresolvedAction req.id reason))
  else
    (res.1, none)

/-- `TimeoutHandler._handle_timeout` on one fetched request.
`current_level = getattr(request, 'escalation_level', 0)` is always 0
because the `HelpRequest` dataclass has no such attribute, so the
max-levels branch never fires and `next_level` is always 1.  On a
committed escalation, the notifier call sits in its own try/except: a
raise is logged as a warning and the escalated action is still returned;
the notifier outcome touches nothing else. -/
def handle_timeout (db : List Row) (supervisors : List String)
    (req : HelpRequestObj) (now : PyDateTime) (notify : NotifyOutcome) :
    HandleResult :=
  let current_level : Nat := 0
  let max_levels := escalation_levels req.priority
  if max_levels ≤ current_level then
    let res := mark_final_unresolved db req now
    { db := res.1, warnings := [], action := res.2 }
  else
    let next_level := current_level + 1
    match get_backup_supervisor supervisors req.assigned_to next_level with
    | some name =>
      let reason :=
        "Escalated from level " ++ toString current_level ++ " to " ++
          toString next_level
      let esc := escalate_request db req.id next_level name reason now
      if esc.2 then
        let warnings := match notify with
          | NotifyOutcome.raises =>
            ["Failed to notify supervisor during escalation"]
          | NotifyOutcome.returns _ => []
        { db := esc.1
          warnings := warnings
          action := some (SweepAction.escalated req.id next_level name
            ("Escalated to level " ++ toString next_level)) }
      else
        let res := mark_final_unresolved esc.1 req now
        { db := res.1, warnings := [], action := res.2 }
    | none =>
      let res := mark_final_unresolved db req now
      { db := res.1, warnings := [], action := res.2 }

/-- `TimeoutHandler.process_timeouts`: fetch the expired rows once via
`check_timeouts` (each converted to a `HelpRequest` object by
`_row_to_help_request`), then handle each in turn, collecting the non-None
actions.  `_check_final_escalations` is a pass-statement no-op and is
omitted. -/
def process_timeouts (db : List Row) (supervisors : List String)
    (now : PyDateTime) (notify : NotifyOutcome) :
    List Row × List SweepAction :=
  let timed_out := (check_timeouts db now).map row_to_help_request
  timed_out.foldl (fun acc req =>
    let res := handle_timeout acc.1 supervisors req now notify
    (res.db, match res.action with
      | some a => acc.2 ++ [a]
      | none => acc.2)) (db, [])

/-- The per-row escalation-bookkeeping invariant: in every store reachable
through the embedded operations, a row's `escalation_level` equals
`min 1 (length of its escalation_history)` (not the history length
itself: the sweep always escalates to level 1). -/
def levelInv (db : List Row) : Prop :=
  ∀ r ∈ db, r.escalation_level = min 1 r.escalation_history.length

/-- Stores reachable from the empty table through the operations named by
the spec: creation, the periodic sweep, manual status update, and
`mark_unresolved`. -/
inductive Reachable : List Row → Prop where
  | empty : Reachable []
  | createStep {db db2 : List Row} {nextId : Nat} {now : PyDateTime}
      {c n q : String} {pr : PyPriorityArg} {tg : List String}
      {md : List (String × String)} {obj : HelpRequestObj} :
      Reachable db →
      create_help_request db nextId now c n q pr tg md =
        Except.ok (db2, obj) →
      Reachable db2
  | sweepStep {db : List Row} {sup : List String} {now : PyDateTime}
      {notify : NotifyOutcome} :
      Reachable db →
      Reachable (process_timeouts db sup now notify).1
  | updateStep {db : List Row} {id : Nat} {st : HelpRequestStatus}
      {a r : Option String} {now : PyDateTime} :
      Reachable db →
      Reachable (update_request_status db id st a r now).1
  | unresolvedStep {db : List Row} {id : Nat} {reason : String}
      {now : PyDateTime} :
      Reachable db →
      Reachable (mark_unresolved db id reason now).1

/-- The supervisor roster of `SupervisorNotifier._load_supervisors`, as
the ordered list of names. -/
def sup3 : List String :=
  ["Maria Rodriguez", "Jennifer Smith", "David Chen"]

/-- Scenario: an URGENT request created at 9:00 (so its deadline is 9:05)
and never resolved. -/
def c1t0 : PyDateTime := ⟨0, 9, 0, 0, 0⟩

/-- The creation call of the scenario. -/
def c1create : Except PyError (List Row × HelpRequestObj) :=
  create_help_request [] 1 c1t0 "cust-1" "Alice Example"
    "Can I reschedule" (PyPriorityArg.enumVal HelpRequestPriority.urgent)
    [] []

/-- The row the scenario creation inserts (checked against `c1create` by
evaluation in the theorems below). -/
def c1row : Row :=
  { id := 1
    customer_id := "cust-1"
    customer_name := "Alice Example"
    question := "Can I reschedule"
    status := HelpRequestStatus.pending
    priority := HelpRequestPriority.urgent
    created_at := c1t0
    updated_at := c1t0
    assigned_to := none
    resolution := none
    tags := []
    metadata := []
    timeout_at := some ⟨0, 9, 5, 0, 0⟩
    escalation_level := 0
    escalation_history := [] }

/-- First sweep of the scenario, at 9:10 (past the 9:05 deadline). -/
def c1sweep1 : List Row × List SweepAction :=
  process_timeouts [c1row] sup3 ⟨0, 9, 10, 0, 0⟩ (NotifyOutcome.returns true)

/-- Second sweep of the scenario, at 9:20 (the 5-minute window has
re-elapsed since the first sweep). -/
def c1sweep2 : List Row × List SweepAction :=
  process_timeouts c1sweep1.1 sup3 ⟨0, 9, 20, 0, 0⟩
    (NotifyOutcome.returns true)

/-- Third sweep of the scenario, at 9:30. -/
def c1sweep3 : List Row × List SweepAction :=
  process_timeouts c1sweep2.1 sup3 ⟨0, 9, 30, 0, 0⟩
    (NotifyOutcome.returns true)

/-- A manual status update pushing the escalated scenario row back to
PENDING at 9:15, between two sweeps. -/
def c8db2 : List Row :=
  (update_request_status c1sweep1.1 1 HelpRequestStatus.pending none none
    ⟨0, 9, 15, 0, 0⟩).1

/-- A sweep at 9:25 over the store with the reset row. -/
def c8db3 : List Row :=
  (process_timeouts c8db2 sup3 ⟨0, 9, 25, 0, 0⟩ (NotifyOutcome.returns true)).1

/-- The timeout-at datetime written by a creation at 10:03:30 with the
URGENT 5-minute window: the code first truncates to the whole minute. -/
def c2row : Row :=
  { id := 1
    customer_id := "cust-2"
    customer_name := "Bob Example"
    question := "Price of a trim"
    status := HelpRequestStatus.pending
    priority := HelpRequestPriority.urgent
    created_at := ⟨0, 10, 3, 30, 0⟩
    updated_at := ⟨0, 10, 3, 30, 0⟩
    assigned_to := none
    resolution := none
    tags := []
    metadata := []
    timeout_at := some ⟨0, 10, 8, 0, 0⟩
    escalation_level := 0
    escalation_history := [] }

/-- A row already in TIMEOUT state at escalation level 1, with a deadline
(8:10) in the past. -/
def c3row : Row :=
  { id := 1
    customer_id := "cust-3"
    customer_name := "Cara Example"
    question := "Opening hours"
    status := HelpRequestStatus.timeout
    priority := HelpRequestPriority.high
    created_at := ⟨0, 8, 0, 0, 0⟩
    updated_at := ⟨0, 8, 11, 0, 0⟩
    assigned_to := some "Maria Rodriguez"
    resolution := none
    tags := []
    metadata := []
    timeout_at := some ⟨0, 8, 10, 0, 0⟩
    escalation_level := 1
    escalation_history :=
      [{ timestamp := ⟨0, 8, 11, 0, 0⟩
         level := 1
         assigned_to := "Maria Rodriguez"
         reason := "Escalated from level 0 to 1" }] }

/-- A row already in the terminal RESOLVED state. -/
def c4row : Row :=
  { id := 1
    customer_id := "cust-4"
    customer_name := "Dana Example"
    question := "Gift cards"
    status := HelpRequestStatus.resolved
    priority := HelpRequestPriority.low
    created_at := ⟨0, 11, 0, 0, 0⟩
    updated_at := ⟨0, 11, 20, 0, 0⟩
    assigned_to := some "Maria Rodriguez"
    resolution := some "Answered by phone"
    tags := []
    metadata := []
    timeout_at := some ⟨0, 11, 30, 0, 0⟩
    escalation_level := 0
    escalation_history := [] }

/-- A pending HIGH-priority row created at 9:00. -/
def c9high : Row :=
  { id := 1
    customer_id := "cust-9a"
    customer_name := "Eve Example"
    question := "Walk-ins"
    status := HelpRequestStatus.pending
    priority := HelpRequestPriority.high
    created_at := ⟨0, 9, 0, 0, 0⟩
    updated_at := ⟨0, 9, 0, 0, 0⟩
    assigned_to := none
    resolution := none
    tags := []
    metadata := []
    timeout_at := some ⟨0, 9, 10, 0, 0⟩
    escalation_level := 0
    escalation_history := [] }

/-- A pending MEDIUM-priority row created later, at 9:01. -/
def c9med : Row :=
  { id := 2
    customer_id := "cust-9b"
    customer_name := "Fay Example"
    question := "Parking"
    status := HelpRequestStatus.pending
    priority := HelpRequestPriority.medium
    created_at := ⟨0, 9, 1, 0, 0⟩
    updated_at := ⟨0, 9, 1, 0, 0⟩
    assigned_to := none
    resolution := none
    tags := []
    metadata := []
    timeout_at := some ⟨0, 9, 16, 0, 0⟩
    escalation_level := 0
    escalation_history := [] }

instance : IsTrans Row pendingRel := by
  constructor
  intro a b c hab hbc
  rcases hab with h1 | ⟨h1, h2⟩ <;> rcases hbc with h3 | ⟨h3, h4⟩
  · exact Or.inl (lt_trans h3 h1)
  · exact Or.inl (h3 ▸ h1)
  · exact Or.inl (h1 ▸ h3)
  · exact Or.inr ⟨h1.trans h3, le_trans h2 h4⟩

instance : IsTotal Row pendingRel := by
  constructor
  intro a b
  rcases lt_trichotomy (priorityText a.priority) (priorityText b.priority)
    with h | h | h
  · exact Or.inr (Or.inl h)
  · rcases Nat.le_total (dtKey a.created_at) (dtKey b.created_at) with hk | hk
    · exact Or.inl (Or.inr ⟨h, hk⟩)
    · exact Or.inr (Or.inr ⟨h.symm, hk⟩)
  · exact Or.inl (Or.inl h)

/-!  Theorems.  Helper lemmas come first, then, per claim, its theorems. -/

theorem levelInv_map (f : Row → Row)
    (hf : ∀ r : Row, r.escalation_level = min 1 r.escalation_history.length →
      (f r).escalation_level = min 1 (f r).escalation_history.length)
    {db : List Row} (h : levelInv db) : levelInv (db.map f) := by
  intro r hr
  rcases List.mem_map.mp hr with ⟨r0, hr0, rfl⟩
  exact hf r0 (h r0 hr0)

theorem update_request_status_levelInv (db : List Row) (request_id : Nat)
    (st : HelpRequestStatus) (a r : Option String) (now : PyDateTime)
    (h : levelInv db) :
    levelInv (update_request_status db request_id st a r now).1 := by
  refine levelInv_map _ (fun r0 h0 => ?_) h
  unfold update_row
  split <;> simpa using h0

theorem mark_unresolved_levelInv (db : List Row) (request_id : Nat)
    (reason : String) (now : PyDateTime) (h : levelInv db) :
    levelInv (mark_unresolved db request_id reason now).1 := by
  refine levelInv_map _ (fun r0 h0 => ?_) h
  unfold unresolved_row
  split <;> simpa using h0

theorem escalate_request_one_levelInv (db : List Row) (request_id : Nat)
    (a reason : String) (now : PyDateTime) (h : levelInv db) :
    levelInv (escalate_request db request_id 1 a reason now).1 := by
  unfold escalate_request
  split
  · exact h
  · refine levelInv_map _ (fun r0 h0 => ?_) h
    unfold escalate_row
    split
    · simp [List.length_append]
    · simpa using h0

theorem mark_final_unresolved_levelInv (db : List Row)
    (req : HelpRequestObj) (now : PyDateTime) (h : levelInv db) :
    levelInv (mark_final_unresolved db req now).1 := by
  unfold mark_final_unresolved
  simpa using mark_unresolved_levelInv db req.id _ now h

theorem handle_timeout_levelInv (db : List Row) (sup : List String)
    (req : HelpRequestObj) (now : PyDateTime) (o : NotifyOutcome)
    (h : levelInv db) : levelInv (handle_timeout db sup req now o).db := by
  simp only [handle_timeout]
  split
  · simpa using mark_final_unresolved_levelInv db req now h
  · split
    · split
      · simpa using
          escalate_request_one_levelInv db req.id _ _ now h
      · simpa using mark_final_unresolved_levelInv _ req now
          (by simpa using escalate_request_one_levelInv db req.id _ _ now h)
    · simpa using mark_final_unresolved_levelInv db req now h

theorem process_timeouts_levelInv (db : List Row) (sup : List String)
    (now : PyDateTime) (o : NotifyOutcome) (h : levelInv db) :
    levelInv (process_timeouts db sup now o).1 := by
  unfold process_timeouts
  have step : ∀ (objs : List HelpRequestObj) (acc : List Row × List SweepAction),
      levelInv acc.1 →
      levelInv (objs.foldl (fun acc req =>
        let res := handle_timeout acc.1 sup req now o
        (res.db, match res.action with
          | some a => acc.2 ++ [a]
          | none => acc.2)) acc).1 := by
    intro objs
    induction objs with
    | nil => intro acc hacc; exact hacc
    | cons a l ih =>
      intro acc hacc
      exact ih _ (handle_timeout_levelInv acc.1 sup a now o hacc)
  exact step _ (db, []) h

theorem create_ok_shape {db db2 : List Row} {nextId : Nat}
    {now : PyDateTime} {c n q : String} {pr : PyPriorityArg}
    {tg : List String} {md : List (String × String)} {obj : HelpRequestObj}
    (h : create_help_request db nextId now c n q pr tg md =
      Except.ok (db2, obj)) :
    ∃ row : Row, db2 = db ++ [row] ∧ row.escalation_level = 0 ∧
      row.escalation_history = [] := by
  unfold create_help_request at h
  split at h
  · dsimp only at h
    split at h <;> simp at h
  · dsimp only at h
    split at h
    · simp at h
    · simp only [Except.ok.injEq, Prod.mk.injEq] at h
      exact ⟨_, h.1.symm, rfl, rfl⟩

theorem handle_timeout_notify (db : List Row) (sup : List String)
    (req : HelpRequestObj) (now : PyDateTime) (o o' : NotifyOutcome) :
    (handle_timeout db sup req now o).db =
      (handle_timeout db sup req now o').db ∧
    (handle_timeout db sup req now o).action =
      (handle_timeout db sup req now o').action := by
  simp only [handle_timeout]
  split
  · exact ⟨rfl, rfl⟩
  · split
    · split
      · exact ⟨rfl, rfl⟩
      · exact ⟨rfl, rfl⟩
    · exact ⟨rfl, rfl⟩

theorem process_timeouts_notify (db : List Row) (sup : List String)
    (now : PyDateTime) (o o' : NotifyOutcome) :
    process_timeouts db sup now o = process_timeouts db sup now o' := by
  unfold process_timeouts
  have step : ∀ (objs : List HelpRequestObj) (acc : List Row × List SweepAction),
      objs.foldl (fun acc req =>
        let res := handle_timeout acc.1 sup req now o
        (res.db, match res.action with
          | some a => acc.2 ++ [a]
          | none => acc.2)) acc =
      objs.foldl (fun acc req =>
        let res := handle_timeout acc.1 sup req now o'
        (res.db, match res.action with
          | some a => acc.2 ++ [a]
          | none => acc.2)) acc := by
    intro objs
    induction objs with
    | nil => intro acc; rfl
    | cons a l ih =>
      intro acc
      simp only [List.foldl_cons]
      rw [(handle_timeout_notify acc.1 sup a now o o').1,
        (handle_timeout_notify acc.1 sup a now o o').2]
      exact ih _
  exact step _ (db, [])

/-- Claim C1 — the code at the claim's own scenario: an URGENT request
created at 9:00 (deadline 9:05), never resolved.  The first sweep past the
deadline escalates it to level 1 with status TIMEOUT.  But `check_timeouts`
selects only `status = 'pending'` rows, so the second and third sweeps —
each after the 5-minute window has re-elapsed — return no expired rows:
the escalation level stays 1 (not `min(N, 3)`), the history keeps
length 1, and the request is never marked UNRESOLVED. -/
theorem C1_code_behavior :
    c1create = Except.ok ([c1row], row_to_help_request c1row) ∧
    c1sweep1.1.map (fun r =>
      (r.escalation_level, r.escalation_history.length, r.status)) =
      [(1, 1, HelpRequestStatus.timeout)] ∧
    c1sweep2.1 = c1sweep1.1 ∧ c1sweep2.2 = [] ∧
    c1sweep3.1 = c1sweep2.1 ∧ c1sweep3.2 = [] ∧
    min 2 (escalation_levels HelpRequestPriority.urgent) = 2 ∧
    (1 : Nat) ≠ 2 := by
  exact ⟨rfl, by decide, by decide, by decide, by decide, by decide,
    by decide, by decide⟩

/-- Claim C2 — the code at the claim's failing inputs.  Creation at a time
whose minute-of-hour is 58 raises `ValueError` for every priority, because
the deadline is computed with `datetime.replace(minute = minute + window)`
and the new minute exceeds 59: creation does not succeed for all T.
Moreover, when creation does succeed, the deadline is computed from T
truncated to the whole minute: created at 10:03:30 with the URGENT
5-minute window the stored deadline is 10:08:00, which is not
T + 5 minutes (10:08:30). -/
theorem C2_code_behavior :
    (∀ p : HelpRequestPriority,
      create_help_request [] 1 ⟨0, 10, 58, 0, 0⟩ "cust-2" "Bob Example"
        "Price of a trim" (PyPriorityArg.enumVal p) [] [] =
        Except.error PyError.valueError) ∧
    create_help_request [] 1 ⟨0, 10, 3, 30, 0⟩ "cust-2" "Bob Example"
      "Price of a trim" (PyPriorityArg.enumVal HelpRequestPriority.urgent)
      [] [] = Except.ok ([c2row], row_to_help_request c2row) ∧
    c2row.timeout_at = some ⟨0, 10, 8, 0, 0⟩ ∧
    dtKey ⟨0, 10, 8, 0, 0⟩ ≠ dtKey ⟨0, 10, 3, 30, 0⟩ + 5 * 60 * 1000000 := by
  refine ⟨fun p => ?_, rfl, by decide, by decide⟩
  cases p <;> rfl

/-- Claim C3 as stated is false: a request already in TIMEOUT whose
deadline (8:10) has passed is NOT returned by `check_timeouts` at 9:00,
because the query filters on `status = 'pending'` only. -/
theorem C3_counterexample :
    check_timeouts [c3row] ⟨0, 9, 0, 0, 0⟩ = [] ∧
    c3row.status = HelpRequestStatus.timeout ∧
    c3row.timeout_at = some ⟨0, 8, 10, 0, 0⟩ ∧
    dtKey ⟨0, 8, 10, 0, 0⟩ < dtKey ⟨0, 9, 0, 0, 0⟩ := by
  decide

/-- Claim C3, amended: for every store contents and every time `now`,
`check_timeouts` returns exactly the requests whose status is PENDING
(TIMEOUT rows are excluded) and whose non-null `timeout_at` is strictly
earlier than `now`. -/
theorem C3_listExpired (db : List Row) (now : PyDateTime) (r : Row) :
    r ∈ check_timeouts db now ↔
      r ∈ db ∧ r.status = HelpRequestStatus.pending ∧
        ∃ t, r.timeout_at = some t ∧ dtKey t < dtKey now := by
  unfold check_timeouts
  rw [List.mem_filter]
  constructor
  · rintro ⟨hmem, hcond⟩
    rw [Bool.and_eq_true] at hcond
    obtain ⟨hst, hto⟩ := hcond
    refine ⟨hmem, by simpa using hst, ?_⟩
    cases ht : r.timeout_at with
    | none => rw [ht] at hto; simp at hto
    | some t =>
      rw [ht] at hto
      exact ⟨t, rfl, by simpa using hto⟩
  · rintro ⟨hmem, hst, t, ht, hlt⟩
    refine ⟨hmem, ?_⟩
    rw [Bool.and_eq_true]
    exact ⟨by simp [hst], by rw [ht]; simpa using hlt⟩

/-- Claim C4 as stated is false: on a store holding a RESOLVED request,
`update_request_status` back to PENDING is not rejected — it returns True
and the record's status really changes, leaving the terminal state. -/
theorem C4_counterexample :
    (update_request_status [c4row] 1 HelpRequestStatus.pending none none
      ⟨0, 12, 0, 0, 0⟩).2 = true ∧
    (update_request_status [c4row] 1 HelpRequestStatus.pending none none
      ⟨0, 12, 0, 0, 0⟩).1.map (fun r => r.status) =
      [HelpRequestStatus.pending] ∧
    c4row.status = HelpRequestStatus.resolved ∧
    HelpRequestStatus.pending ≠ HelpRequestStatus.resolved := by
  decide

/-- Claim C4, amended: neither `update_request_status` nor
`mark_unresolved` checks the current status.  For every request in a
terminal state (RESOLVED or UNRESOLVED), both operations report success
and apply their writes to the record — the claimed `ValidationError`
rejection does not exist, and records can leave terminal states. -/
theorem C4_no_terminal_guard (db : List Row) (request_id : Nat)
    (st : HelpRequestStatus) (a res : Option String) (reason : String)
    (now : PyDateTime) (row : Row) (hrow : row ∈ db)
    (hid : row.id = request_id)
    (hterm : row.status = HelpRequestStatus.resolved ∨
      row.status = HelpRequestStatus.unresolved) :
    (update_request_status db request_id st a res now).2 = true ∧
    update_row request_id st a res now row ∈
      (update_request_status db request_id st a res now).1 ∧
    (update_row request_id st a res now row).status = st ∧
    (mark_unresolved db request_id reason now).2 = true ∧
    unresolved_row request_id reason now row ∈
      (mark_unresolved db request_id reason now).1 ∧
    (unresolved_row request_id reason now row).status =
      HelpRequestStatus.unresolved := by
  have hbeq : (row.id == request_id) = true := by simpa using hid
  refine ⟨rfl, ?_, ?_, rfl, ?_, ?_⟩
  · exact List.mem_map_of_mem _ hrow
  · unfold update_row
    rw [hbeq]
    simp
  · exact List.mem_map_of_mem _ hrow
  · unfold unresolved_row
    rw [hbeq]
    simp

/-- Witness for C4_no_terminal_guard at the concrete RESOLVED row. -/
theorem C4_no_terminal_guard_witness :
    (update_request_status [c4row] 1 HelpRequestStatus.in_progress none none
      ⟨0, 12, 0, 0, 0⟩).2 = true ∧
    update_row 1 HelpRequestStatus.in_progress none none
      ⟨0, 12, 0, 0, 0⟩ c4row ∈
      (update_request_status [c4row] 1 HelpRequestStatus.in_progress none
        none ⟨0, 12, 0, 0, 0⟩).1 ∧
    (update_row 1 HelpRequestStatus.in_progress none none
      ⟨0, 12, 0, 0, 0⟩ c4row).status = HelpRequestStatus.in_progress ∧
    (mark_unresolved [c4row] 1 "retry" ⟨0, 12, 0, 0, 0⟩).2 = true ∧
    unresolved_row 1 "retry" ⟨0, 12, 0, 0, 0⟩ c4row ∈
      (mark_unresolved [c4row] 1 "retry" ⟨0, 12, 0, 0, 0⟩).1 ∧
    (unresolved_row 1 "retry" ⟨0, 12, 0, 0, 0⟩ c4row).status =
      HelpRequestStatus.unresolved :=
  C4_no_terminal_guard [c4row] 1 HelpRequestStatus.in_progress none none
    "retry" ⟨0, 12, 0, 0, 0⟩ c4row (by decide) (by decide)
    (Or.inl (by decide))

/-- Claim C5 as stated is false: with the 2-member team [Alice, Bob] and
Alice currently assigned, the resolver excludes Alice, so level 1 selects
Bob — not the member at index `(1-1) mod 2` of the team, which is Alice —
and level 2 selects Bob again: Bob repeats before Alice is ever
selected. -/
theorem C5_counterexample :
    get_backup_supervisor ["Alice", "Bob"] (some "Alice") 1 = some "Bob" ∧
    get_backup_supervisor ["Alice", "Bob"] (some "Alice") 2 = some "Bob" ∧
    (["Alice", "Bob"] : List String)[(1 - 1) % 2]? = some "Alice" ∧
    ("Bob" : String) ≠ "Alice" := by
  decide

/-- Claim C5, amended: the index formula `(targetLevel - 1) mod teamSize`
and the each-member-once property hold when the request has no current
assignee (then nobody is excluded).  When the current assignee is a member
of a team of two or more, selection runs over the remaining members
instead (as `C5_counterexample` shows). -/
theorem C5_no_assignee (team : List String) (hne : team ≠ [])
    (hnd : team.Nodup) :
    (∀ lvl : Nat, get_backup_supervisor team none lvl =
      team[(lvl - 1) % team.length]?) ∧
    (∀ i j : Nat, 1 ≤ i → i < j → j ≤ team.length →
      get_backup_supervisor team none i ≠
        get_backup_supervisor team none j) := by
  have hlen : 0 < team.length := List.length_pos.mpr hne
  have hempty : team.isEmpty = false := by
    cases team with
    | nil => exact absurd rfl hne
    | cons a l => rfl
  have hsel : ∀ lvl : Nat, get_backup_supervisor team none lvl =
      team[(lvl - 1) % team.length]? := by
    intro lvl
    unfold get_backup_supervisor
    rw [hempty]
    simp [List.filter_true, hempty]
  refine ⟨hsel, ?_⟩
  intro i j hi hij hj
  rw [hsel i, hsel j]
  have hi' : (i - 1) % team.length = i - 1 := Nat.mod_eq_of_lt (by omega)
  have hj' : (j - 1) % team.length = j - 1 := Nat.mod_eq_of_lt (by omega)
  have hilt : i - 1 < team.length := by omega
  have hjlt : j - 1 < team.length := by omega
  rw [hi', hj', List.getElem?_eq_getElem hilt,
    List.getElem?_eq_getElem hjlt]
  intro hcontra
  have heq := Option.some.inj hcontra
  have : i - 1 = j - 1 := by
    have h2 := (List.Nodup.get_inj_iff hnd
      (i := ⟨i - 1, hilt⟩) (j := ⟨j - 1, hjlt⟩)).mp (by simpa using heq)
    simpa using congrArg Fin.val h2
  omega

/-- Witness for C5_no_assignee on a concrete 3-member team: consecutive
levels pick distinct members. -/
theorem C5_no_assignee_witness :
    get_backup_supervisor ["Ann", "Ben", "Cal"] none 1 ≠
      get_backup_supervisor ["Ann", "Ben", "Cal"] none 2 :=
  (C5_no_assignee ["Ann", "Ben", "Cal"] (by decide) (by decide)).2 1 2
    (by decide) (by decide) (by decide)

/-- Claim C6 as stated is false: a non-enum priority value does make
`create_help_request` fail without inserting, but the failure is an
`AttributeError` from evaluating `priority.value`, not a
`ValidationError` — no `ValidationError` class exists in the code, and
`_calculate_timeout_minutes` silently defaults the unknown priority to
15 minutes instead of validating. -/
theorem C6_counterexample :
    create_help_request [] 1 ⟨0, 10, 0, 0, 0⟩ "cust" "Gus Example"
      "Refund" (PyPriorityArg.nonEnum "banana") [] [] =
      Except.error PyError.attributeError ∧
    calculate_timeout_minutes (PyPriorityArg.nonEnum "banana") = 15 ∧
    PyError.attributeError ≠ PyError.validationError := by
  exact ⟨rfl, rfl, by decide⟩

/-- Claim C6, amended: for every input whose priority argument is not one
of the four enum members, `_calculate_timeout_minutes` returns the default
15 with no validation, and `create_help_request` fails with some error —
`ValueError` when the minute arithmetic overflows, otherwise
`AttributeError` — never with a `ValidationError`; the error is raised
before any row is inserted. -/
theorem C6_no_validation (s : String) (db : List Row) (nextId : Nat)
    (now : PyDateTime) (c n q : String) (tg : List String)
    (md : List (String × String)) :
    calculate_timeout_minutes (PyPriorityArg.nonEnum s) = 15 ∧
    ∃ e, create_help_request db nextId now c n q
      (PyPriorityArg.nonEnum s) tg md = Except.error e ∧
      e ≠ PyError.validationError := by
  refine ⟨rfl, ?_⟩
  by_cases h : 60 ≤ now.minute + 15
  · refine ⟨PyError.valueError, ?_, by decide⟩
    unfold create_help_request
    dsimp only
    rw [if_pos (by simpa [calculate_timeout_minutes] using h)]
  · refine ⟨PyError.attributeError, ?_, by decide⟩
    unfold create_help_request
    dsimp only
    rw [if_neg (by simpa [calculate_timeout_minutes] using h)]

/-- Claim C7: the outcome of the notifier call (raising or returning
failure) after `escalate_request` has committed changes neither the store
nor the reported action of the sweep step — for the single-request handler
and for the whole sweep alike.  Only the logged warnings differ. -/
theorem C7_notify_does_not_roll_back (db : List Row) (sup : List String)
    (req : HelpRequestObj) (now : PyDateTime) (o o' : NotifyOutcome) :
    (handle_timeout db sup req now o).db =
      (handle_timeout db sup req now o').db ∧
    (handle_timeout db sup req now o).action =
      (handle_timeout db sup req now o').action ∧
    process_timeouts db sup now o = process_timeouts db sup now o' :=
  ⟨(handle_timeout_notify db sup req now o o').1,
    (handle_timeout_notify db sup req now o o').2,
    process_timeouts_notify db sup now o o'⟩

/-- Claim C8 as stated is false on a reachable state: create an URGENT
request, sweep once (level 1, history length 1), manually push it back to
PENDING, sweep again.  The handler reads
`getattr(request, 'escalation_level', 0)` from a dataclass that has no
such attribute, so it escalates to level `0 + 1 = 1` again while the
history grows to length 2: `escalationLevel = 1` is not the history
length 2. -/
theorem C8_counterexample :
    c1create = Except.ok ([c1row], row_to_help_request c1row) ∧
    c8db3.map (fun r => (r.escalation_level, r.escalation_history.length)) =
      [(1, 2)] ∧
    (1 : Nat) ≠ 2 := by
  exact ⟨rfl, by decide, by decide⟩

/-- Claim C8, amended: in every state reachable through the embedded
operations (creation, sweep, manual status update, mark_unresolved),
every request satisfies
`escalationLevel = min 1 (length escalationHistory)` â the level matches
the history length only up to length 1, because the sweep always
escalates to level 1. -/
theorem C8_level_min_one (db : List Row) (h : Reachable db) :
    levelInv db := by
  induction h with
  | empty => intro r hr; cases hr
  | createStep hrb hc ih =>
    obtain ⟨row, rfl, h0, hh⟩ := create_ok_shape hc
    intro r hrm
    rcases List.mem_append.mp hrm with h1 | h1
    · exact ih r h1
    · rw [List.mem_singleton] at h1
      subst h1
      simp [h0, hh]
  | sweepStep hrb ih => exact process_timeouts_levelInv _ _ _ _ ih
  | updateStep hrb ih => exact update_request_status_levelInv _ _ _ _ _ _ ih
  | unresolvedStep hrb ih => exact mark_unresolved_levelInv _ _ _ _ ih

/-- Witness for C8_level_min_one on a concrete reachable store: creation
followed by one sweep. -/
theorem C8_level_min_one_witness :
    levelInv (process_timeouts [c1row] sup3 ⟨0, 9, 10, 0, 0⟩
      (NotifyOutcome.returns true)).1 :=
  C8_level_min_one _
    (Reachable.sweepStep (Reachable.createStep Reachable.empty
      (show c1create = Except.ok ([c1row], row_to_help_request c1row)
        from rfl)))

/-- Claim C9 as stated is false: with a pending HIGH row and a pending
MEDIUM row in the store, `get_pending_requests` returns the MEDIUM row
first, because `ORDER BY priority DESC` sorts the TEXT values
lexicographically ("urgent" > "medium" > "low" > "high"), not by
severity. -/
theorem C9_counterexample :
    (get_pending_requests [c9high, c9med] 50).map (fun r => r.priority) =
      [HelpRequestPriority.medium, HelpRequestPriority.high] ∧
    priorityText HelpRequestPriority.high <
      priorityText HelpRequestPriority.medium := by
  decide

/-- Claim C9, amended: `get_pending_requests` returns only PENDING rows of
the store, at most `limit` of them, ordered by the comparator the SQL
actually applies: priority TEXT descending (lexicographically, so urgent,
medium, low, high), then created_at ascending. -/
theorem C9_pending_order (db : List Row) (limit : Nat) :
    (get_pending_requests db limit).length ≤ limit ∧
    (∀ r ∈ get_pending_requests db limit,
      r ∈ db ∧ r.status = HelpRequestStatus.pending) ∧
    List.Pairwise pendingRel (get_pending_requests db limit) := by
  refine ⟨List.length_take_le _ _, ?_, ?_⟩
  · intro r hr
    have h1 : r ∈ List.insertionSort pendingRel
        (db.filter (fun r => r.status == HelpRequestStatus.pending)) :=
      List.take_subset _ _ hr
    have h2 : r ∈ db.filter (fun r =>
        r.status == HelpRequestStatus.pending) :=
      (List.perm_insertionSort pendingRel _).mem_iff.mp h1
    have h3 := List.mem_filter.mp h2
    exact ⟨h3.1, by simpa using h3.2⟩
  · exact List.Pairwise.sublist (List.take_sublist _ _)
      (List.sorted_insertionSort pendingRel _)

/-- Witness for C9_pending_order at the concrete two-row store. -/
theorem C9_pending_order_witness :
    c9high ∈ ([c9high, c9med] : List Row) ∧
    c9high.status = HelpRequestStatus.pending :=
  (C9_pending_order [c9high, c9med] 50).2.1 c9high (by decide)

/-- Claim C10: `get_help_request` never raises (its embedded result type
is `Option`, with the `except` handler folded into the `ioError`
outcome).  It returns `None` when the lookup hits a storage error, and
`None` when no row has the id â and the two cases are indistinguishable
to the caller. -/
theorem C10_get_help_request_none (db : List Row) (request_id : Nat) :
    get_help_request StorageOutcome.ioError db request_id = none ∧
    ((∀ r ∈ db, r.id ≠ request_id) →
      get_help_request StorageOutcome.ok db request_id = none) ∧
    get_help_request StorageOutcome.ioError db request_id =
      get_help_request StorageOutcome.ok [] request_id := by
  refine ⟨rfl, ?_, rfl⟩
  intro h
  unfold get_help_request
  rw [List.find?_eq_none.mpr]
  · rfl
  · intro x hx
    simpa using h x hx

/-- Witness for C10_get_help_request_none: a store whose only row has
id 1, queried for id 99. -/
theorem C10_get_help_request_none_witness :
    get_help_request StorageOutcome.ok [c3row] 99 = none :=
  (C10_get_help_request_none [c3row] 99).2.1 (by decide)

end FrontDesk
